import Mathlib

/-!
Verification of the MentraOS session and subscription messaging core.

The definitions below are shallow embeddings of the TypeScript sources:
LocationService (cloud location.service.ts), AppServer (sdk server module),
and LocationManager.getLatestLocation (sdk location module).  Components the
spec describes but whose code is absent from the sources (SubscriptionManager
and AccuracyArbiter) are modelled from the spec and marked as such.
-/

namespace MentraOS

/-! ## LocationService (cloud location.service.ts, final revision) -/

/-- The navigation package identifiers NAVIGATION_APP_PACKAGES. -/
def NAVIGATION_APP_PACKAGES : List String :=
  ["com.nathan.nav", "com.mentra.navigation", "com.mentra.navigationdev"]

/-- One call to LocationService sendCommandToDevice: the message type together
with the rate payload it carries. -/
structure EmittedCommand where
  type : String
  rate : String
deriving DecidableEq, Repr

/-- The user document as consulted by onAppStopped: its runningApps list. -/
structure UserRecord where
  runningApps : List String
deriving DecidableEq, Repr

/-- LocationService.onAppStarted: the commands it passes to sendCommandToDevice
for one started package. -/
def onAppStarted (packageName : String) : List EmittedCommand :=
  if NAVIGATION_APP_PACKAGES.contains packageName then
    [{ type := "SET_LOCATION_ACCURACY", rate := "realtime" }]
  else
    []

/-- LocationService.onAppStopped: the commands it passes to sendCommandToDevice,
given the result of the User.findOne lookup for this userId. -/
def onAppStopped (packageName : String) (user : Option UserRecord) : List EmittedCommand :=
  if NAVIGATION_APP_PACKAGES.contains packageName then
    match user with
    | some u =>
      if u.runningApps.any (fun app => NAVIGATION_APP_PACKAGES.contains app) then
        []
      else
        [{ type := "SET_LOCATION_ACCURACY", rate := "standard" }]
    | none =>
      [{ type := "SET_LOCATION_ACCURACY", rate := "standard" }]
  else
    []

/-- A lifecycle event delivered to LocationService, with the user lookup result
observed at stop time. -/
inductive AppEvent
  | started (packageName : String)
  | stopped (packageName : String) (user : Option UserRecord)
deriving DecidableEq, Repr

/-- Commands emitted while handling one event. -/
def eventCommands : AppEvent → List EmittedCommand
  | AppEvent.started p => onAppStarted p
  | AppEvent.stopped p u => onAppStopped p u

/-- Commands emitted across a sequence of lifecycle events, in order. -/
def traceCommands (events : List AppEvent) : List EmittedCommand :=
  events.flatMap eventCommands

/-! ## LocationService sendCommandToDevice -/

/-- WebSocket ready states (ws library). -/
inductive ReadyState
  | CONNECTING
  | OPEN
  | CLOSING
  | CLOSED
deriving DecidableEq, Repr

/-- The device websocket as seen by sendCommandToDevice: its ready state, and
whether the send call would throw. -/
structure DeviceSocket where
  readyState : ReadyState
  sendThrows : Bool
deriving DecidableEq, Repr

/-- The user session consulted through sessionService.getSessionByUserId. -/
structure UserSession where
  websocket : Option DeviceSocket
deriving DecidableEq, Repr

/-- The message object built by sendCommandToDevice; the payload of an accuracy
command is the rate object. -/
structure DeviceMessage where
  type : String
  rate : String
  timestamp : String
deriving DecidableEq, Repr

/-- Result of one sendCommandToDevice call.  The catch branch of the source is
the sendFailed constructor: the error is logged and the call returns normally,
so no outcome propagates an exception to the caller. -/
inductive SendOutcome
  | sent (m : DeviceMessage)
  | sendFailed (m : DeviceMessage)
  | notSent
deriving DecidableEq, Repr

/-- LocationService sendCommandToDevice: build the message and send it over the
user websocket when that socket exists and is open; otherwise warn and skip. -/
def sendCommandToDevice (session : Option UserSession) (type : String) (rate : String)
    (timestamp : String) : SendOutcome :=
  match session with
  | some s =>
    match s.websocket with
    | some ws =>
      if ws.readyState = ReadyState.OPEN then
        let m : DeviceMessage := { type := type, rate := rate, timestamp := timestamp }
        if ws.sendThrows then SendOutcome.sendFailed m else SendOutcome.sent m
      else SendOutcome.notSent
    | none => SendOutcome.notSent
  | none => SendOutcome.notSent

/-- The message an outcome handed to websocket send, when any. -/
def messageOf : SendOutcome → Option DeviceMessage
  | SendOutcome.sent m => some m
  | SendOutcome.sendFailed m => some m
  | SendOutcome.notSent => none

/-- The guard of sendCommandToDevice: the session has a websocket in the OPEN state. -/
def socketIsOpen (session : Option UserSession) : Bool :=
  match session with
  | some s =>
    match s.websocket with
    | some ws => ws.readyState = ReadyState.OPEN
    | none => false
  | none => false

/-! ## Theorems for claims C1, C3, C8, C10 -/

/-- Claim C1: when a navigation App stops while another navigation package remains
in the runningApps list of the user, no revert command is emitted; when no
navigation package remains, exactly one SET_LOCATION_ACCURACY standard command
is emitted. -/
theorem C1_last_nav_app_revert (packageName : String) (u : UserRecord)
    (hnav : NAVIGATION_APP_PACKAGES.contains packageName = true) :
    (u.runningApps.any (fun app => NAVIGATION_APP_PACKAGES.contains app) = true →
      onAppStopped packageName (some u) = []) ∧
    (u.runningApps.any (fun app => NAVIGATION_APP_PACKAGES.contains app) = false →
      onAppStopped packageName (some u) =
        [{ type := "SET_LOCATION_ACCURACY", rate := "standard" }]) := by
  have hmem : packageName ∈ NAVIGATION_APP_PACKAGES := by simpa using hnav
  constructor
  · intro hrun
    have hrun2 : ∃ x ∈ u.runningApps, x ∈ NAVIGATION_APP_PACKAGES := by simpa using hrun
    simp [onAppStopped, hmem, hrun2]
  · intro hrun
    have hrun2 : ¬ ∃ x ∈ u.runningApps, x ∈ NAVIGATION_APP_PACKAGES := by simpa using hrun
    simp [onAppStopped, hmem, hrun2]

theorem C1_last_nav_app_revert_witness :
    NAVIGATION_APP_PACKAGES.contains "com.nathan.nav" = true ∧
    onAppStopped "com.nathan.nav" (some { runningApps := ["com.mentra.navigation"] }) = [] ∧
    onAppStopped "com.nathan.nav" (some { runningApps := ["com.other.app"] }) =
      [{ type := "SET_LOCATION_ACCURACY", rate := "standard" }] :=
  ⟨by decide,
   (C1_last_nav_app_revert "com.nathan.nav" { runningApps := ["com.mentra.navigation"] }
      (by decide)).1 (by decide),
   (C1_last_nav_app_revert "com.nathan.nav" { runningApps := ["com.other.app"] }
      (by decide)).2 (by decide)⟩

/-- Claim C3 counterexample: starting a second navigation App while realtime mode
is already in effect re-issues the SET_LOCATION_ACCURACY realtime command: the
two starts emit two realtime commands, where the claim predicts the second start
emits none. -/
theorem C3_counterexample :
    traceCommands
      [AppEvent.started "com.mentra.navigation", AppEvent.started "com.mentra.navigationdev"] =
      [{ type := "SET_LOCATION_ACCURACY", rate := "realtime" },
       { type := "SET_LOCATION_ACCURACY", rate := "realtime" }] := by
  decide

/-- Claim C3 amended: LocationService tracks no last-dispatched tier, so
recomputation is not idempotent: whatever commands the preceding events emitted,
a navigation App start always emits exactly one further SET_LOCATION_ACCURACY
realtime command, including a second start while realtime is already in effect. -/
theorem C3_start_always_reissues (t : List AppEvent) (packageName : String)
    (hnav : NAVIGATION_APP_PACKAGES.contains packageName = true) :
    traceCommands (t ++ [AppEvent.started packageName]) =
      traceCommands t ++ [{ type := "SET_LOCATION_ACCURACY", rate := "realtime" }] := by
  have hmem : packageName ∈ NAVIGATION_APP_PACKAGES := by simpa using hnav
  simp [traceCommands, eventCommands, onAppStarted, hmem]

theorem C3_start_always_reissues_witness :
    NAVIGATION_APP_PACKAGES.contains "com.mentra.navigationdev" = true ∧
    traceCommands
        [AppEvent.started "com.mentra.navigation", AppEvent.started "com.mentra.navigationdev"] =
      traceCommands [AppEvent.started "com.mentra.navigation"] ++
        [{ type := "SET_LOCATION_ACCURACY", rate := "realtime" }] :=
  ⟨by decide,
   C3_start_always_reissues [AppEvent.started "com.mentra.navigation"]
     "com.mentra.navigationdev" (by decide)⟩

/-- Claim C8: every accuracy command toward the device is the object with exactly
the type, rate payload and timestamp fields; it is handed to websocket send
precisely when the user session websocket exists and is open; and every call
returns one of the three normal outcomes, a send failure being caught as the
sendFailed outcome rather than propagated. -/
theorem C8_device_command_shape (session : Option UserSession) (rate timestamp : String) :
    (messageOf (sendCommandToDevice session "SET_LOCATION_ACCURACY" rate timestamp) =
      if socketIsOpen session then
        some { type := "SET_LOCATION_ACCURACY", rate := rate, timestamp := timestamp }
      else none) ∧
    (sendCommandToDevice session "SET_LOCATION_ACCURACY" rate timestamp = SendOutcome.notSent ∨
      (∃ m, sendCommandToDevice session "SET_LOCATION_ACCURACY" rate timestamp =
        SendOutcome.sent m) ∨
      (∃ m, sendCommandToDevice session "SET_LOCATION_ACCURACY" rate timestamp =
        SendOutcome.sendFailed m)) := by
  constructor
  · match session with
    | none => rfl
    | some s =>
      match hw : s.websocket with
      | none => simp [sendCommandToDevice, socketIsOpen, messageOf, hw]
      | some ws =>
        by_cases ho : ws.readyState = ReadyState.OPEN
        · cases ht : ws.sendThrows <;>
            simp [sendCommandToDevice, socketIsOpen, messageOf, hw, ho, ht]
        · simp [sendCommandToDevice, socketIsOpen, messageOf, hw, ho]
  · match session with
    | none => exact Or.inl rfl
    | some s =>
      match hw : s.websocket with
      | none => simp [sendCommandToDevice, hw]
      | some ws =>
        by_cases ho : ws.readyState = ReadyState.OPEN
        · cases ht : ws.sendThrows
          · refine Or.inr (Or.inl ?_)
            exact ⟨{ type := "SET_LOCATION_ACCURACY", rate := rate, timestamp := timestamp },
              by simp [sendCommandToDevice, hw, ho, ht]⟩
          · refine Or.inr (Or.inr ?_)
            exact ⟨{ type := "SET_LOCATION_ACCURACY", rate := rate, timestamp := timestamp },
              by simp [sendCommandToDevice, hw, ho, ht]⟩
        · simp [sendCommandToDevice, hw, ho]

/-- Claim C10: when the user record is not found at navigation App stop, the
standard revert command is emitted as a safeguard. -/
theorem C10_user_not_found_safeguard (packageName : String)
    (hnav : NAVIGATION_APP_PACKAGES.contains packageName = true) :
    onAppStopped packageName none =
      [{ type := "SET_LOCATION_ACCURACY", rate := "standard" }] := by
  have hmem : packageName ∈ NAVIGATION_APP_PACKAGES := by simpa using hnav
  simp [onAppStopped, hmem]

theorem C10_user_not_found_safeguard_witness :
    NAVIGATION_APP_PACKAGES.contains "com.mentra.navigation" = true ∧
    onAppStopped "com.mentra.navigation" none =
      [{ type := "SET_LOCATION_ACCURACY", rate := "standard" }] :=
  ⟨by decide, C10_user_not_found_safeguard "com.mentra.navigation" (by decide)⟩

/-! ## AppServer (sdk server module): activeSessions registry and webhook handlers -/

/-- What the AppServer knows about one AppSession it created. -/
structure AppSessionRec where
  userId : String
  packageName : String
deriving DecidableEq, Repr

/-- The activeSessions Map keyed by sessionId, as an association list in
insertion order. -/
abbrev Registry := List (String × AppSessionRec)

/-- Map.get: the record stored under a sessionId. -/
def regGet (r : Registry) (k : String) : Option AppSessionRec :=
  (r.find? (fun p => p.1 == k)).map Prod.snd

/-- Map.set: overwrite the entry under the key, or append a new one. -/
def regSet (r : Registry) (k : String) (v : AppSessionRec) : Registry :=
  if r.any (fun p => p.1 == k) then
    r.map (fun p => if p.1 == k then (k, v) else p)
  else
    r ++ [(k, v)]

/-- Map.delete: drop every entry under the key. -/
def regDelete (r : Registry) (k : String) : Registry :=
  r.filter (fun p => !(p.1 == k))

/-- The session webhook request payload used by handleSessionRequest. -/
structure SessionWebhookRequest where
  sessionId : String
  userId : String
deriving DecidableEq, Repr

/-- The webhook HTTP responses the AppServer produces. -/
inductive WebhookResponse
  | success
  | error (status : Nat) (message : String)
deriving DecidableEq, Repr

/-- Observable effects of one handleSessionRequest call: the registry afterwards,
the HTTP response, whether the disconnect and error handler cleanups ran, and the
onStop invocations it made, as sessionId, userId, reason triples. -/
structure HandleResult where
  registry : Registry
  response : WebhookResponse
  cleanupsRun : Bool
  stopCalls : List (String × String × String)
deriving DecidableEq, Repr

/-- AppServer.handleSessionRequest: create the AppSession, connect, register it
under its sessionId and run onSession; on any failure run the handler cleanups
and answer 500.  connectOk stands for session.connect succeeding and onSessionOk
for the subclass onSession hook returning without throwing. -/
def handleSessionRequest (packageName : String) (reg : Registry)
    (req : SessionWebhookRequest) (connectOk onSessionOk : Bool) : HandleResult :=
  if connectOk then
    let reg1 := regSet reg req.sessionId { userId := req.userId, packageName := packageName }
    if onSessionOk then
      { registry := reg1, response := WebhookResponse.success,
        cleanupsRun := false, stopCalls := [] }
    else
      { registry := reg1, response := WebhookResponse.error 500 "Failed to connect",
        cleanupsRun := true, stopCalls := [] }
  else
    { registry := reg, response := WebhookResponse.error 500 "Failed to connect",
      cleanupsRun := true, stopCalls := [] }

/-! ## Theorems for claims C2 and C5 -/

/-- Claim C2 counterexample: two session start requests for the same
userId and packageName with distinct sessionIds both succeed, the registry then
holds two live sessions for that pair, and neither request issued any onStop
call, so no session was stopped with reason superseded. -/
theorem C2_counterexample :
    ((handleSessionRequest "com.example.app"
        (handleSessionRequest "com.example.app" [] ⟨"sessA", "alice"⟩ true true).registry
        ⟨"sessB", "alice"⟩ true true).registry.filter
      (fun p => p.2.userId == "alice" && p.2.packageName == "com.example.app")).length = 2 ∧
    (handleSessionRequest "com.example.app" [] ⟨"sessA", "alice"⟩ true true).stopCalls = [] ∧
    (handleSessionRequest "com.example.app"
        (handleSessionRequest "com.example.app" [] ⟨"sessA", "alice"⟩ true true).registry
        ⟨"sessB", "alice"⟩ true true).stopCalls = [] := by
  decide

/-- Claim C2 amended: the activeSessions registry is keyed by sessionId alone and
handleSessionRequest never stops a prior session: it makes no onStop call, it
only overwrites the entry under the same sessionId, and when the incoming
sessionId is new every existing entry, including a live session for the same
userId and packageName, is retained alongside the new one. -/
theorem C2_registry_keyed_by_sessionId (packageName : String) (reg : Registry)
    (req : SessionWebhookRequest) (connectOk onSessionOk : Bool) :
    (handleSessionRequest packageName reg req connectOk onSessionOk).stopCalls = [] ∧
    (handleSessionRequest packageName reg req connectOk onSessionOk).registry =
      (if connectOk then
        regSet reg req.sessionId { userId := req.userId, packageName := packageName }
      else reg) ∧
    (connectOk = true → regGet reg req.sessionId = none →
      (handleSessionRequest packageName reg req connectOk onSessionOk).registry =
        reg ++ [(req.sessionId, { userId := req.userId, packageName := packageName })]) := by
  refine ⟨?_, ?_, ?_⟩
  · cases connectOk <;> cases onSessionOk <;> rfl
  · cases connectOk <;> cases onSessionOk <;> rfl
  · intro hc hget
    subst hc
    have hany : reg.any (fun p => p.1 == req.sessionId) = false := by
      rcases hfind : reg.find? (fun p => p.1 == req.sessionId) with _ | p
      · rw [List.any_eq_false]
        intro p hp
        have := List.find?_eq_none.mp hfind p hp
        simpa using this
      · exfalso
        have hsome : regGet reg req.sessionId = some p.2 := by simp [regGet, hfind]
        rw [hget] at hsome
        exact Option.noConfusion hsome
    cases onSessionOk <;> simp [handleSessionRequest, regSet, hany]

theorem C2_registry_keyed_by_sessionId_witness :
    (handleSessionRequest "com.example.app" [] ⟨"sessA", "alice"⟩ true true).stopCalls = [] ∧
    (handleSessionRequest "com.example.app" [] ⟨"sessA", "alice"⟩ true true).registry =
      (if true then
        regSet [] "sessA" { userId := "alice", packageName := "com.example.app" }
      else []) ∧
    (handleSessionRequest "com.example.app" [] ⟨"sessA", "alice"⟩ true true).registry =
      [] ++ [("sessA", { userId := "alice", packageName := "com.example.app" })] :=
  have h := C2_registry_keyed_by_sessionId "com.example.app" [] ⟨"sessA", "alice"⟩ true true
  ⟨h.1, h.2.1, h.2.2 rfl (by decide)⟩

/-- Claim C5: when the transport handshake fails, handleSessionRequest leaves the
activeSessions registry unchanged, runs the disconnect and error handler
cleanups, makes no onStop call, and answers the caller with a 500 error response
instead of a session. -/
theorem C5_handshake_failure_atomic (packageName : String) (reg : Registry)
    (req : SessionWebhookRequest) (onSessionOk : Bool) :
    handleSessionRequest packageName reg req false onSessionOk =
      { registry := reg
        response := WebhookResponse.error 500 "Failed to connect"
        cleanupsRun := true
        stopCalls := [] } := rfl

/-! ## Registry lemmas shared by the lifecycle proofs -/

theorem regGet_cons (p : String × AppSessionRec) (r : Registry) (sid : String) :
    regGet (p :: r) sid = if p.1 == sid then some p.2 else regGet r sid := by
  cases h : (p.1 == sid) <;> simp [regGet, List.find?_cons, h]

theorem regGet_append_ne (r : Registry) (k sid : String) (v : AppSessionRec)
    (hne : (k == sid) = false) : regGet (r ++ [(k, v)]) sid = regGet r sid := by
  induction r with
  | nil => simp [regGet_cons, hne, regGet]
  | cons p r ih =>
    cases hps : (p.1 == sid)
    · simp [List.cons_append, regGet_cons, hps, ih]
    · simp [List.cons_append, regGet_cons, hps]

theorem regGet_mapSet_ne (r : Registry) (k sid : String) (v : AppSessionRec)
    (hne : (k == sid) = false) :
    regGet (r.map (fun p => if p.1 == k then (k, v) else p)) sid = regGet r sid := by
  have hne2 : k ≠ sid := by simpa using hne
  have hne3 : sid ≠ k := fun h => hne2 h.symm
  induction r with
  | nil => rfl
  | cons p r ih =>
    simp only [beq_iff_eq] at ih
    by_cases hpk : p.1 = k
    · simp [List.map_cons, regGet_cons, hpk, hne2, hne3, ih]
    · by_cases hps : p.1 = sid
      · simp [List.map_cons, regGet_cons, hpk, hps, hne3]
      · simp [List.map_cons, regGet_cons, hpk, hps, ih]

theorem regGet_regSet_ne (r : Registry) (k sid : String) (v : AppSessionRec)
    (hne : (k == sid) = false) : regGet (regSet r k v) sid = regGet r sid := by
  unfold regSet
  cases hany : r.any (fun p => p.1 == k)
  · rw [if_neg (by simp)]
    exact regGet_append_ne r k sid v hne
  · rw [if_pos rfl]
    exact regGet_mapSet_ne r k sid v hne

theorem regGet_regDelete_self (r : Registry) (k : String) :
    regGet (regDelete r k) k = none := by
  induction r with
  | nil => rfl
  | cons p r ih =>
    cases hpk : (p.1 == k)
    · simpa [regDelete, List.filter_cons, hpk, regGet_cons] using ih
    · simpa [regDelete, List.filter_cons, hpk] using ih

theorem regGet_regDelete_none (r : Registry) (k sid : String)
    (h : regGet r sid = none) : regGet (regDelete r k) sid = none := by
  induction r with
  | nil => rfl
  | cons p r ih =>
    cases hps : (p.1 == sid)
    · have h' : regGet r sid = none := by
        rw [regGet_cons] at h
        simpa [hps] using h
      cases hpk : (p.1 == k)
      · simpa [regDelete, List.filter_cons, hpk, regGet_cons, hps] using ih h'
      · simpa [regDelete, List.filter_cons, hpk] using ih h'
    · rw [regGet_cons] at h
      simp [hps] at h

theorem handleSessionRequest_registry (packageName : String) (reg : Registry)
    (req : SessionWebhookRequest) (connectOk onSessionOk : Bool) :
    (handleSessionRequest packageName reg req connectOk onSessionOk).registry =
      (if connectOk then
        regSet reg req.sessionId { userId := req.userId, packageName := packageName }
      else reg) := by
  cases connectOk <;> cases onSessionOk <;> rfl

/-! ## Session lifecycle: onStop, the onDisconnected handler, and event traces -/

/-- The info argument delivered to the onDisconnected handler: either a plain
string or the detailed object whose permanent flag marks a permanent loss. -/
inductive DiscInfo
  | str (s : String)
  | obj (permanent : Bool) (reason : String)
deriving DecidableEq, Repr

/-- AppServer.onStop default implementation: disconnect and remove the session
when it is still registered.  Returns the new registry and whether the
disconnect call happened. -/
def onStopDefault (reg : Registry) (sessionId : String) : Registry × Bool :=
  match regGet reg sessionId with
  | some _ => (regDelete reg sessionId, true)
  | none => (reg, false)

/-- The onDisconnected handler installed by handleSessionRequest: on an object
info with permanent true it calls onStop with the permanent-loss reason, and in
every case it removes the session from activeSessions.  Returns the new registry
and the onStop invocations made, as sessionId, userId, reason triples. -/
def onDisconnectedHandler (reg : Registry) (sessionId userId : String) (info : DiscInfo) :
    Registry × List (String × String × String) :=
  match info with
  | DiscInfo.str _ => (regDelete reg sessionId, [])
  | DiscInfo.obj permanent reason =>
    if permanent then
      ((regDelete (onStopDefault reg sessionId).1 sessionId),
        [(sessionId, userId, "Connection permanently lost: " ++ reason)])
    else
      (regDelete reg sessionId, [])

/-- Events the AppServer reacts to: a session webhook, a disconnect notification
from an AppSession, or a stop webhook. -/
inductive SrvEvent
  | start (req : SessionWebhookRequest) (connectOk onSessionOk : Bool)
  | disconnect (sessionId userId : String) (info : DiscInfo)
  | stopWebhook (sessionId userId reason : String)
deriving DecidableEq, Repr

/-- Observable server state: the activeSessions registry and the accumulated
onStop invocations. -/
structure SrvState where
  registry : Registry
  stops : List (String × String × String)
deriving DecidableEq, Repr

/-- One event handled by the AppServer. -/
def srvStep (packageName : String) (st : SrvState) : SrvEvent → SrvState
  | SrvEvent.start req connectOk onSessionOk =>
    { st with
      registry := (handleSessionRequest packageName st.registry req connectOk onSessionOk).registry }
  | SrvEvent.disconnect sid uid info =>
    let r := onDisconnectedHandler st.registry sid uid info
    { registry := r.1, stops := st.stops ++ r.2 }
  | SrvEvent.stopWebhook sid uid reason =>
    { registry := (onStopDefault st.registry sid).1, stops := st.stops ++ [(sid, uid, reason)] }

/-- A sequence of events handled in order. -/
def srvRun (packageName : String) (st : SrvState) (evs : List SrvEvent) : SrvState :=
  evs.foldl (srvStep packageName) st

/-- Whether handling the event makes an onStop invocation for this sessionId. -/
def addsStopFor (sid : String) : SrvEvent → Bool
  | SrvEvent.start _ _ _ => false
  | SrvEvent.disconnect sid2 _ info =>
    match info with
    | DiscInfo.str _ => false
    | DiscInfo.obj permanent _ => sid2 == sid && permanent
  | SrvEvent.stopWebhook sid2 _ _ => sid2 == sid

/-- Whether handling the event can register this sessionId in activeSessions. -/
def registersSid (sid : String) : SrvEvent → Bool
  | SrvEvent.start req _ _ => req.sessionId == sid
  | SrvEvent.disconnect _ _ _ => false
  | SrvEvent.stopWebhook _ _ _ => false

/-- The onStop invocations recorded for this sessionId. -/
def stopsFor (sid : String) (st : SrvState) : List (String × String × String) :=
  st.stops.filter (fun c => c.1 == sid)

theorem stopsFor_srvStep_no (packageName sid : String) (st : SrvState) (e : SrvEvent)
    (h : addsStopFor sid e = false) :
    stopsFor sid (srvStep packageName st e) = stopsFor sid st := by
  match e with
  | SrvEvent.start req cok sok => rfl
  | SrvEvent.disconnect sid2 uid info =>
    match info with
    | DiscInfo.str s => simp [srvStep, onDisconnectedHandler, stopsFor]
    | DiscInfo.obj permanent reason =>
      cases hp : permanent
      · simp [srvStep, onDisconnectedHandler, stopsFor]
      · have hne : (sid2 == sid) = false := by
          subst hp
          simpa [addsStopFor] using h
        simp [srvStep, onDisconnectedHandler, stopsFor, List.filter_append, hne]
  | SrvEvent.stopWebhook sid2 uid reason =>
    have hne : (sid2 == sid) = false := by simpa [addsStopFor] using h
    simp [srvStep, stopsFor, List.filter_append, hne]

theorem stopsFor_srvRun_no (packageName sid : String) (st : SrvState) (evs : List SrvEvent)
    (h : evs.all (fun e => !addsStopFor sid e) = true) :
    stopsFor sid (srvRun packageName st evs) = stopsFor sid st := by
  induction evs generalizing st with
  | nil => rfl
  | cons e evs ih =>
    rw [List.all_cons] at h
    have he : addsStopFor sid e = false := by
      cases hb : addsStopFor sid e
      · rfl
      · rw [hb] at h
        simp at h
    have hrest : evs.all (fun e => !addsStopFor sid e) = true := by
      cases hb : evs.all (fun e => !addsStopFor sid e)
      · rw [hb] at h
        simp at h
      · rfl
    calc stopsFor sid (srvRun packageName (srvStep packageName st e) evs)
        = stopsFor sid (srvStep packageName st e) := ih _ hrest
      _ = stopsFor sid st := stopsFor_srvStep_no packageName sid st e he

theorem regGet_srvStep_none (packageName sid : String) (st : SrvState) (e : SrvEvent)
    (hreg : regGet st.registry sid = none) (hr : registersSid sid e = false) :
    regGet (srvStep packageName st e).registry sid = none := by
  match e with
  | SrvEvent.start req cok sok =>
    have hne : (req.sessionId == sid) = false := by simpa [registersSid] using hr
    show regGet (handleSessionRequest packageName st.registry req cok sok).registry sid = none
    rw [handleSessionRequest_registry]
    cases cok
    · simpa using hreg
    · simpa [regGet_regSet_ne st.registry req.sessionId sid _ hne] using hreg
  | SrvEvent.disconnect sid2 uid info =>
    match info with
    | DiscInfo.str s =>
      exact regGet_regDelete_none st.registry sid2 sid hreg
    | DiscInfo.obj permanent reason =>
      cases hp : permanent
      · exact regGet_regDelete_none st.registry sid2 sid hreg
      · show regGet (regDelete (onStopDefault st.registry sid2).1 sid2) sid = none
        have h1 : regGet (onStopDefault st.registry sid2).1 sid = none := by
          unfold onStopDefault
          cases hg : regGet st.registry sid2
          · simpa using hreg
          · exact regGet_regDelete_none st.registry sid2 sid hreg
        exact regGet_regDelete_none _ sid2 sid h1
  | SrvEvent.stopWebhook sid2 uid reason =>
    show regGet (onStopDefault st.registry sid2).1 sid = none
    unfold onStopDefault
    cases hg : regGet st.registry sid2
    · simpa using hreg
    · exact regGet_regDelete_none st.registry sid2 sid hreg

theorem regGet_srvRun_none (packageName sid : String) (st : SrvState) (evs : List SrvEvent)
    (hreg : regGet st.registry sid = none)
    (h : evs.all (fun e => !registersSid sid e) = true) :
    regGet (srvRun packageName st evs).registry sid = none := by
  induction evs generalizing st with
  | nil => exact hreg
  | cons e evs ih =>
    rw [List.all_cons] at h
    have he : registersSid sid e = false := by
      cases hb : registersSid sid e
      · rfl
      · rw [hb] at h
        simp at h
    have hrest : evs.all (fun e => !registersSid sid e) = true := by
      cases hb : evs.all (fun e => !registersSid sid e)
      · rw [hb] at h
        simp at h
      · rfl
    exact ih _ (regGet_srvStep_none packageName sid st e hreg he) hrest

theorem srvStep_perm_disconnect (packageName : String) (st : SrvState)
    (sid uid reason : String) :
    srvStep packageName st (SrvEvent.disconnect sid uid (DiscInfo.obj true reason)) =
      { registry := regDelete (onStopDefault st.registry sid).1 sid
        stops := st.stops ++ [(sid, uid, "Connection permanently lost: " ++ reason)] } := by
  simp [srvStep, onDisconnectedHandler]

/-! ## Theorem for claim C6 -/

/-- Claim C6: delivering a disconnect notification with permanent true makes the
server invoke onStop exactly once for that session, with a reason recording the
permanent connection loss, and removes the session from activeSessions; the
transition is terminal: provided no other event stops that sessionId and no
later start re-registers it, the final state records exactly that one onStop
invocation and the session is absent from the registry. -/
theorem C6_permanent_disconnect_terminal (packageName sid uid reason : String)
    (pre post : List SrvEvent)
    (hpre : pre.all (fun e => !addsStopFor sid e) = true)
    (hpost : post.all (fun e => !addsStopFor sid e) = true)
    (hpost2 : post.all (fun e => !registersSid sid e) = true) :
    stopsFor sid (srvRun packageName { registry := [], stops := [] }
        (pre ++ SrvEvent.disconnect sid uid (DiscInfo.obj true reason) :: post)) =
      [(sid, uid, "Connection permanently lost: " ++ reason)] ∧
    regGet (srvRun packageName { registry := [], stops := [] }
        (pre ++ SrvEvent.disconnect sid uid (DiscInfo.obj true reason) :: post)).registry
      sid = none := by
  have hsplit :
      srvRun packageName { registry := [], stops := [] }
          (pre ++ SrvEvent.disconnect sid uid (DiscInfo.obj true reason) :: post) =
        srvRun packageName
          (srvStep packageName
            (srvRun packageName { registry := [], stops := [] } pre)
            (SrvEvent.disconnect sid uid (DiscInfo.obj true reason)))
          post := by
    simp [srvRun, List.foldl_append]
  set st0 := srvRun packageName { registry := [], stops := [] } pre with hst0
  have hstops0 : stopsFor sid st0 = [] := by
    rw [hst0]
    rw [stopsFor_srvRun_no packageName sid _ pre hpre]
    rfl
  set st1 := srvStep packageName st0 (SrvEvent.disconnect sid uid (DiscInfo.obj true reason))
    with hst1
  have hstops1 : stopsFor sid st1 =
      [(sid, uid, "Connection permanently lost: " ++ reason)] := by
    rw [hst1, srvStep_perm_disconnect]
    show (st0.stops ++ [(sid, uid, "Connection permanently lost: " ++ reason)]).filter
        (fun c => c.1 == sid) = _
    rw [List.filter_append]
    have : st0.stops.filter (fun c => c.1 == sid) = [] := hstops0
    rw [this]
    simp
  have hreg1 : regGet st1.registry sid = none := by
    rw [hst1, srvStep_perm_disconnect]
    exact regGet_regDelete_self _ sid
  constructor
  · rw [hsplit]
    rw [stopsFor_srvRun_no packageName sid st1 post hpost]
    exact hstops1
  · rw [hsplit]
    exact regGet_srvRun_none packageName sid st1 post hreg1 hpost2

theorem C6_permanent_disconnect_terminal_witness :
    ([SrvEvent.start ⟨"s1", "u1"⟩ true true].all
        (fun e => !addsStopFor "s1" e) = true) ∧
    stopsFor "s1" (srvRun "com.example.app" { registry := [], stops := [] }
        ([SrvEvent.start ⟨"s1", "u1"⟩ true true] ++
          SrvEvent.disconnect "s1" "u1" (DiscInfo.obj true "ws closed") ::
            [SrvEvent.stopWebhook "s2" "u2" "user request"])) =
      [("s1", "u1", "Connection permanently lost: ws closed")] ∧
    regGet (srvRun "com.example.app" { registry := [], stops := [] }
        ([SrvEvent.start ⟨"s1", "u1"⟩ true true] ++
          SrvEvent.disconnect "s1" "u1" (DiscInfo.obj true "ws closed") ::
            [SrvEvent.stopWebhook "s2" "u2" "user request"])).registry "s1" = none :=
  have h := C6_permanent_disconnect_terminal "com.example.app" "s1" "u1" "ws closed"
    [SrvEvent.start ⟨"s1", "u1"⟩ true true]
    [SrvEvent.stopWebhook "s2" "u2" "user request"]
    (by decide) (by decide) (by decide)
  ⟨by decide, h.1, h.2⟩

/-! ## LocationManager.getLatestLocation (sdk location module) -/

/-- Fueled little-endian decimal digits; any fuel at least n computes them all. -/
def decDigitsFuel : Nat → Nat → List Nat
  | _, 0 => []
  | 0, _ + 1 => []
  | fuel + 1, n + 1 => ((n + 1) % 10) :: decDigitsFuel fuel ((n + 1) / 10)

/-- Little-endian decimal digits of a natural number. -/
def decDigits (n : Nat) : List Nat := decDigitsFuel n n

theorem decDigitsFuel_eq_digits (fuel : Nat) : ∀ n : Nat, n ≤ fuel →
    decDigitsFuel fuel n = Nat.digits 10 n := by
  induction fuel with
  | zero =>
    intro n hn
    have h0 : n = 0 := Nat.le_zero.mp hn
    subst h0
    rw [Nat.digits_zero]
    rfl
  | succ f ih =>
    intro n hn
    match n with
    | 0 =>
      rw [Nat.digits_zero]
      rfl
    | n + 1 =>
      show ((n + 1) % 10) :: decDigitsFuel f ((n + 1) / 10) = _
      have hdiv : (n + 1) / 10 ≤ f := by
        have h1 : (n + 1) / 10 < n + 1 := Nat.div_lt_self (Nat.succ_pos n) (by norm_num)
        omega
      rw [ih _ hdiv]
      rw [Nat.digits_def' (by norm_num : (1 : ℕ) < 10) (Nat.succ_pos n)]

theorem decDigits_eq_digits (n : Nat) : decDigits n = Nat.digits 10 n :=
  decDigitsFuel_eq_digits n n (Nat.le_refl n)

/-- The decimal string a JS template produces for a nonnegative integer. -/
def natDecimal (n : Nat) : String :=
  if n = 0 then "0" else String.mk (((decDigits n).map Nat.digitChar).reverse)

theorem digitChar_inj_lt : ∀ a < 10, ∀ b < 10, Nat.digitChar a = Nat.digitChar b → a = b := by
  decide

theorem mapDigitChar_inj : ∀ l1 l2 : List Nat, (∀ d ∈ l1, d < 10) → (∀ d ∈ l2, d < 10) →
    l1.map Nat.digitChar = l2.map Nat.digitChar → l1 = l2 := by
  intro l1
  induction l1 with
  | nil =>
    intro l2 _ _ h
    cases l2 with
    | nil => rfl
    | cons b l2 => simp at h
  | cons a l1 ih =>
    intro l2 h1 h2 h
    cases l2 with
    | nil => simp at h
    | cons b l2 =>
      simp only [List.map_cons, List.cons.injEq] at h
      have ha : a < 10 := h1 a (List.mem_cons_self a l1)
      have hb : b < 10 := h2 b (List.mem_cons_self b l2)
      have hab := digitChar_inj_lt a ha b hb h.1
      have hrest := ih l2 (fun d hd => h1 d (List.mem_cons_of_mem a hd))
        (fun d hd => h2 d (List.mem_cons_of_mem b hd)) h.2
      rw [hab, hrest]

theorem natDecimal_ne_zero_str (n : Nat) (hn : n ≠ 0) : natDecimal n ≠ "0" := by
  intro h
  unfold natDecimal at h
  rw [if_neg hn] at h
  have hdata : ((decDigits n).map Nat.digitChar).reverse = ['0'] := by
    have := congrArg String.data h
    simpa using this
  have hmap : (decDigits n).map Nat.digitChar = ['0'] := by
    have := congrArg List.reverse hdata
    simpa using this
  have hdig : Nat.digits 10 n = [0] := by
    rw [decDigits_eq_digits] at hmap
    match hd : Nat.digits 10 n with
    | [] => rw [hd] at hmap; simp at hmap
    | [d] =>
      rw [hd] at hmap
      simp only [List.map_cons, List.map_nil, List.cons.injEq] at hmap
      have hdlt : d < 10 := Nat.digits_lt_base (by norm_num) (hd ▸ List.mem_cons_self d [])
      have : d = 0 := digitChar_inj_lt d hdlt 0 (by norm_num) (by simpa using hmap.1)
      rw [this]
    | d1 :: d2 :: ds => rw [hd] at hmap; simp at hmap
  have h0 := Nat.ofDigits_digits 10 n
  rw [hdig] at h0
  exact hn (by simpa [Nat.ofDigits] using h0.symm)

theorem natDecimal_inj (m n : Nat) (h : natDecimal m = natDecimal n) : m = n := by
  by_cases hm : m = 0
  · by_cases hn : n = 0
    · rw [hm, hn]
    · exfalso
      apply natDecimal_ne_zero_str n hn
      rw [← h, hm]
      rfl
  · by_cases hn : n = 0
    · exfalso
      apply natDecimal_ne_zero_str m hm
      rw [h, hn]
      rfl
    · unfold natDecimal at h
      rw [if_neg hm, if_neg hn] at h
      have hlist : ((decDigits m).map Nat.digitChar).reverse =
          ((decDigits n).map Nat.digitChar).reverse := by
        have := congrArg String.data h
        simpa using this
      have hmap : (decDigits m).map Nat.digitChar = (decDigits n).map Nat.digitChar := by
        have := congrArg List.reverse hlist
        simpa using this
      rw [decDigits_eq_digits, decDigits_eq_digits] at hmap
      have hdig := mapDigitChar_inj (Nat.digits 10 m) (Nat.digits 10 n)
        (fun d hd => Nat.digits_lt_base (by norm_num) hd)
        (fun d hd => Nat.digits_lt_base (by norm_num) hd) hmap
      exact Nat.digits.injective 10 hdig

/-- The requestId string generated by getLatestLocation from the current time
and the random suffix. -/
def mkRequestId (now : Nat) (rand : String) : String :=
  "poll_" ++ natDecimal now ++ "_" ++ rand

theorem str_data_append (s t : String) : (s ++ t).data = s.data ++ t.data := by
  cases s
  cases t
  rfl

theorem str_of_data_eq {s t : String} (h : s.data = t.data) : s = t := by
  cases s
  cases t
  exact congrArg String.mk h

theorem mkRequestId_inj_now (a b : Nat) (rand : String)
    (h : mkRequestId a rand = mkRequestId b rand) : a = b := by
  have hd := congrArg String.data h
  simp only [mkRequestId, str_data_append, List.append_assoc] at hd
  have h1 := List.append_cancel_left hd
  rw [← List.append_assoc, ← List.append_assoc] at h1
  have h2 := List.append_cancel_right h1
  exact natDecimal_inj a b (str_of_data_eq (List.append_cancel_right h2))

theorem mkRequestId_inj_rand (now : Nat) (r1 r2 : String)
    (h : mkRequestId now r1 = mkRequestId now r2) : r1 = r2 := by
  have hd := congrArg String.data h
  simp only [mkRequestId, str_data_append, List.append_assoc] at hd
  exact str_of_data_eq
    (List.append_cancel_left (List.append_cancel_left (List.append_cancel_left hd)))

/-- Message types an App sends to the cloud that this module uses. -/
inductive TpaToCloudMessageType
  | LOCATION_POLL_REQUEST
deriving DecidableEq, Repr

/-- The poll request message sent to the cloud by getLatestLocation. -/
structure PollRequestMsg where
  type : TpaToCloudMessageType
  correlationId : String
  accuracy : String
deriving DecidableEq, Repr

/-- The message getLatestLocation sends for one poll. -/
def getLatestLocationRequest (now : Nat) (rand : String) (accuracy : String) : PollRequestMsg :=
  { type := TpaToCloudMessageType.LOCATION_POLL_REQUEST
    correlationId := mkRequestId now rand
    accuracy := accuracy }

/-- A location update event as seen by the poll listener. -/
structure LocUpdate where
  correlationId : String
  body : String
deriving DecidableEq, Repr

/-- The 15 second timeout of getLatestLocation, in milliseconds. -/
def POLL_TIMEOUT_MS : Nat := 15000

/-- How the getLatestLocation promise settles. -/
inductive PollOutcome
  | resolved (u : LocUpdate)
  | timedOut
deriving DecidableEq, Repr

/-- Outcome of one poll, given the location update events in arrival order, each
tagged with its arrival time in milliseconds after the request was issued.  The
listener resolves on the first matching update that arrives before the timeout
unsubscribes it; otherwise the timeout rejects, and updates arriving at or after
the timeout are never seen by the unsubscribed listener. -/
def pollOutcome (requestId : String) (events : List (Nat × LocUpdate)) : PollOutcome :=
  match (events.filter (fun e => e.1 < POLL_TIMEOUT_MS)).find?
      (fun e => e.2.correlationId == requestId) with
  | some e => PollOutcome.resolved e.2
  | none => PollOutcome.timedOut

/-! ## Theorem for claim C4 -/

/-- Claim C4: the poll sends a request carrying the freshly generated
correlationId, distinct issue times or distinct random suffixes yield distinct
ids; if no update carrying that id arrives before the 15000 ms default
deadline the waiter times out; and a matching update arriving at or after the
deadline is ignored: it changes nothing about the outcome and never delivers a
value. -/
theorem C4_poll_correlation (now : Nat) (rand accuracy : String)
    (events : List (Nat × LocUpdate)) :
    POLL_TIMEOUT_MS = 15000 ∧
    (getLatestLocationRequest now rand accuracy).correlationId = mkRequestId now rand ∧
    (∀ now2 : Nat, mkRequestId now2 rand = mkRequestId now rand → now2 = now) ∧
    (∀ rand2 : String, mkRequestId now rand2 = mkRequestId now rand → rand2 = rand) ∧
    ((events.filter (fun e => e.1 < POLL_TIMEOUT_MS)).all
        (fun e => !(e.2.correlationId == mkRequestId now rand)) = true →
      pollOutcome (mkRequestId now rand) events = PollOutcome.timedOut) ∧
    (∀ (t : Nat) (u : LocUpdate), POLL_TIMEOUT_MS ≤ t →
      pollOutcome (mkRequestId now rand) (events ++ [(t, u)]) =
        pollOutcome (mkRequestId now rand) events) := by
  refine ⟨rfl, rfl, ?_, ?_, ?_, ?_⟩
  · exact fun now2 h => mkRequestId_inj_now now2 now rand h
  · exact fun rand2 h => mkRequestId_inj_rand now rand2 rand h
  · intro hall
    unfold pollOutcome
    have hnone : (events.filter (fun e => e.1 < POLL_TIMEOUT_MS)).find?
        (fun e => e.2.correlationId == mkRequestId now rand) = none := by
      rw [List.find?_eq_none]
      intro x hx
      have := List.all_eq_true.mp hall x hx
      simpa using this
    rw [hnone]
  · intro t u ht
    unfold pollOutcome
    rw [List.filter_append]
    have hdrop : List.filter (fun e => decide (e.1 < POLL_TIMEOUT_MS)) [(t, u)] = [] := by
      simp [List.filter_cons, Nat.not_lt.mpr ht]
    rw [hdrop, List.append_nil]

theorem C4_poll_correlation_witness :
    pollOutcome (mkRequestId 1700000000000 "k3j9x2a") [] = PollOutcome.timedOut ∧
    pollOutcome (mkRequestId 1700000000000 "k3j9x2a")
        ([] ++ [(15000,
          { correlationId := mkRequestId 1700000000000 "k3j9x2a", body := "late fix" })]) =
      pollOutcome (mkRequestId 1700000000000 "k3j9x2a") [] :=
  have h := C4_poll_correlation 1700000000000 "k3j9x2a" "high" []
  ⟨h.2.2.2.2.1 (by decide),
   h.2.2.2.2.2 15000
     { correlationId := mkRequestId 1700000000000 "k3j9x2a", body := "late fix" }
     (Nat.le_refl 15000)⟩

/-! ## AppServer settings endpoint -/

/-- Whether the first list is an initial segment of the second. -/
def leadsList : List Char → List Char → Bool
  | [], _ => true
  | _ :: _, [] => false
  | a :: as, b :: bs => a == b && leadsList as bs

/-- JS String.prototype.includes: the needle occurs contiguously in the hay. -/
def strContains (hay needle : String) : Bool :=
  (List.range (hay.data.length + 1)).any (fun i => leadsList needle.data (hay.data.drop i))

/-- The request body of the settings endpoint: the userIdForSettings field when
present, and whether the settings field is an array. -/
structure SettingsRequestBody where
  userIdForSettings : Option String
  settingsIsArray : Bool
deriving DecidableEq, Repr

/-- Responses of the settings endpoint. -/
inductive SettingsResponse
  | badRequest
  | ok (sessionsUpdated : Nat)
deriving DecidableEq, Repr

/-- AppServer setupSettingsEndpoint handler: reject a missing or falsy
userIdForSettings or a non-array settings field, otherwise update every active
session whose sessionId contains userIdForSettings and answer success with the
number of sessions updated.  Returns the response and the sessionIds on which
updateSettingsForTesting was called. -/
def settingsEndpoint (sessions : Registry) (body : SettingsRequestBody) :
    SettingsResponse × List String :=
  match body.userIdForSettings with
  | none => (SettingsResponse.badRequest, [])
  | some uid =>
    if uid == "" || !body.settingsIsArray then (SettingsResponse.badRequest, [])
    else
      let matched := sessions.filter (fun p => strContains p.1 uid)
      (SettingsResponse.ok matched.length, matched.map Prod.fst)

theorem leadsList_iff (n : List Char) : ∀ h : List Char,
    (leadsList n h = true ↔ ∃ t, h = n ++ t) := by
  induction n with
  | nil =>
    intro h
    simp [leadsList]
  | cons a as ih =>
    intro h
    cases h with
    | nil =>
      simp [leadsList]
    | cons b bs =>
      rw [show leadsList (a :: as) (b :: bs) = (a == b && leadsList as bs) from rfl]
      constructor
      · intro hand
        have h1 : (a == b) = true := (Bool.and_eq_true _ _).mp hand |>.1
        have h2 : leadsList as bs = true := (Bool.and_eq_true _ _).mp hand |>.2
        obtain ⟨t, ht⟩ := (ih bs).mp h2
        refine ⟨t, ?_⟩
        rw [ht, List.cons_append, eq_of_beq h1]
      · rintro ⟨t, ht⟩
        rw [List.cons_append] at ht
        obtain ⟨hb, hbs⟩ := List.cons.injEq _ _ _ _ ▸ ht
        refine (Bool.and_eq_true _ _).mpr ⟨?_, ?_⟩
        · rw [hb]
          exact beq_self_eq_true a
        · exact (ih bs).mpr ⟨t, hbs⟩

theorem strContains_iff (hay needle : String) :
    strContains hay needle = true ↔
      ∃ pre post : List Char, hay.data = pre ++ needle.data ++ post := by
  unfold strContains
  rw [List.any_eq_true]
  constructor
  · rintro ⟨i, hi, hlead⟩
    obtain ⟨t, ht⟩ := (leadsList_iff needle.data (hay.data.drop i)).mp hlead
    refine ⟨hay.data.take i, t, ?_⟩
    calc hay.data = hay.data.take i ++ hay.data.drop i := (List.take_append_drop i _).symm
      _ = hay.data.take i ++ needle.data ++ t := by rw [ht, List.append_assoc]
  · rintro ⟨pre, post, hsplit⟩
    refine ⟨pre.length, ?_, ?_⟩
    · rw [List.mem_range]
      have : hay.data.length = pre.length + (needle.data.length + post.length) := by
        rw [hsplit]
        simp [List.length_append, Nat.add_assoc]
      omega
    · have hdrop : hay.data.drop pre.length = needle.data ++ post := by
        rw [hsplit, List.append_assoc, List.drop_left]
      rw [hdrop]
      exact (leadsList_iff needle.data _).mpr ⟨post, rfl⟩

/-! ## Theorem for claim C9 -/

/-- Claim C9: with a well-formed body, the settings endpoint updates exactly the
active sessions whose sessionId contains userIdForSettings as a substring, where
containment is genuine substring occurrence, so a session stored for a different
user whose sessionId happens to contain the string is updated too; and when no
session matches it still answers success with sessionsUpdated zero. -/
theorem C9_settings_substring_match (sessions : Registry) (uid : String)
    (hne : uid ≠ "") :
    (settingsEndpoint sessions { userIdForSettings := some uid, settingsIsArray := true }).2 =
      (sessions.filter (fun p => strContains p.1 uid)).map Prod.fst ∧
    (settingsEndpoint sessions { userIdForSettings := some uid, settingsIsArray := true }).1 =
      SettingsResponse.ok
        ((sessions.filter (fun p => strContains p.1 uid)).length) ∧
    (∀ hay : String, strContains hay uid = true ↔
      ∃ pre post : List Char, hay.data = pre ++ uid.data ++ post) ∧
    (∀ (sid : String) (rec : AppSessionRec), (sid, rec) ∈ sessions →
      strContains sid uid = true →
      sid ∈ (settingsEndpoint sessions
        { userIdForSettings := some uid, settingsIsArray := true }).2) ∧
    ((∀ p ∈ sessions, strContains p.1 uid = false) →
      settingsEndpoint sessions { userIdForSettings := some uid, settingsIsArray := true } =
        (SettingsResponse.ok 0, [])) := by
  have huid : (uid == "") = false := by
    cases hb : (uid == "")
    · rfl
    · exact absurd (eq_of_beq hb) hne
  have hunfold : settingsEndpoint sessions
      { userIdForSettings := some uid, settingsIsArray := true } =
      (SettingsResponse.ok ((sessions.filter (fun p => strContains p.1 uid)).length),
        (sessions.filter (fun p => strContains p.1 uid)).map Prod.fst) := by
    unfold settingsEndpoint
    simp [huid]
  refine ⟨by rw [hunfold], by rw [hunfold], ?_, ?_, ?_⟩
  · exact fun hay => strContains_iff hay uid
  · intro sid rec hmem hcont
    rw [hunfold]
    exact List.mem_map.mpr ⟨(sid, rec), List.mem_filter.mpr ⟨hmem, hcont⟩, rfl⟩
  · intro hnomatch
    rw [hunfold]
    have hfilter : sessions.filter (fun p => strContains p.1 uid) = [] := by
      rw [List.filter_eq_nil_iff]
      intro p hp
      simp [hnomatch p hp]
    rw [hfilter]
    rfl

theorem C9_settings_substring_match_witness :
    "alice" ≠ "" ∧
    "sess-malice-1" ∈ (settingsEndpoint
        [("sess-malice-1", { userId := "mallory", packageName := "com.example.app" })]
        { userIdForSettings := some "alice", settingsIsArray := true }).2 :=
  have h := C9_settings_substring_match
    [("sess-malice-1", { userId := "mallory", packageName := "com.example.app" })]
    "alice" (by decide)
  ⟨by decide,
   h.2.2.2.1 "sess-malice-1" { userId := "mallory", packageName := "com.example.app" }
     (by decide) (by decide)⟩

/-! ## SubscriptionManager and AccuracyArbiter (modelled from the spec) -/

/-- The accuracy tiers the SDK location module accepts. -/
inductive AccuracyTier
  | standard
  | tenMeters
  | hundredMeters
  | kilometer
  | threeKilometers
  | reduced
  | high
  | realtime
deriving DecidableEq, Repr

/-- Modelled from the spec: the documented ascending policy order over accuracy
tiers, standard lowest and realtime highest, given by rank. -/
def tierRank : AccuracyTier → Nat
  | AccuracyTier.standard => 0
  | AccuracyTier.tenMeters => 1
  | AccuracyTier.hundredMeters => 2
  | AccuracyTier.kilometer => 3
  | AccuracyTier.threeKilometers => 4
  | AccuracyTier.reduced => 5
  | AccuracyTier.high => 6
  | AccuracyTier.realtime => 7

/-- The policy order as a Boolean comparison. -/
def tierLe (a b : AccuracyTier) : Bool :=
  tierRank a ≤ tierRank b

/-- Join of two tiers under the policy order. -/
def tierMax (a b : AccuracyTier) : AccuracyTier :=
  if tierRank a ≤ tierRank b then b else a

/-- Modelled from the spec: a live Subscription, a session stream pair with its
requested accuracy tier; the SubscriptionManager is absent from the sources, so
its registry is the list of live Subscriptions. -/
structure Subscription where
  userId : String
  packageName : String
  streamType : String
  tier : AccuracyTier
deriving DecidableEq, Repr

/-- Modelled from the spec: SubscriptionManager.maxDemand, the supremum of the
tiers of all live Subscriptions for the user and stream, or none when no
Subscription remains. -/
def maxDemand (subs : List Subscription) (userId streamType : String) : Option AccuracyTier :=
  match (subs.filter (fun s => s.userId == userId && s.streamType == streamType)).map
      Subscription.tier with
  | [] => none
  | t :: ts => some (ts.foldl tierMax t)

/-- Modelled from the spec: AccuracyArbiter recomputation for one user and
stream; given the tier last dispatched toward the device it emits exactly one
command carrying the new tier when the recomputed demand differs, and nothing
otherwise; an empty demand reverts to the default standard tier. -/
def arbiterRecompute (lastDispatched : AccuracyTier) (subs : List Subscription)
    (userId streamType : String) : AccuracyTier × List AccuracyTier :=
  let target := (maxDemand subs userId streamType).getD AccuracyTier.standard
  if target = lastDispatched then (lastDispatched, []) else (target, [target])

theorem tierRank_foldl_le_self (ts : List AccuracyTier) : ∀ t : AccuracyTier,
    tierRank t ≤ tierRank (ts.foldl tierMax t) := by
  induction ts with
  | nil => intro t; exact Nat.le_refl _
  | cons a ts ih =>
    intro t
    have h1 : tierRank t ≤ tierRank (tierMax t a) := by
      unfold tierMax
      by_cases h : tierRank t ≤ tierRank a
      · rw [if_pos h]; exact h
      · rw [if_neg h]
    exact Nat.le_trans h1 (ih (tierMax t a))

theorem tierRank_mem_le_foldl (ts : List AccuracyTier) : ∀ (t x : AccuracyTier), x ∈ ts →
    tierRank x ≤ tierRank (ts.foldl tierMax t) := by
  induction ts with
  | nil => intro t x hx; cases hx
  | cons a ts ih =>
    intro t x hx
    rw [List.foldl_cons]
    rcases List.mem_cons.mp hx with hxa | hxts
    · subst hxa
      have h1 : tierRank x ≤ tierRank (tierMax t x) := by
        unfold tierMax
        by_cases h : tierRank t ≤ tierRank x
        · rw [if_pos h]
        · rw [if_neg h]
          omega
      exact Nat.le_trans h1 (tierRank_foldl_le_self ts (tierMax t x))
    · exact ih (tierMax t a) x hxts

theorem foldl_tierMax_mem (ts : List AccuracyTier) : ∀ t : AccuracyTier,
    ts.foldl tierMax t ∈ t :: ts := by
  induction ts with
  | nil => intro t; exact List.mem_cons_self t []
  | cons a ts ih =>
    intro t
    rw [List.foldl_cons]
    have h := ih (tierMax t a)
    rcases List.mem_cons.mp h with h1 | h2
    · rw [h1]
      unfold tierMax
      by_cases hc : tierRank t ≤ tierRank a
      · rw [if_pos hc]
        exact List.mem_cons_of_mem t (List.mem_cons_self a ts)
      · rw [if_neg hc]
        exact List.mem_cons_self t (a :: ts)
    · exact List.mem_cons_of_mem t (List.mem_cons_of_mem a h2)

/-! ## Theorem for claim C7 -/

/-- Claim C7: maxDemand is the supremum of the tiers of the live Subscriptions
for the user and stream under the fixed ascending order standard, tenMeters,
hundredMeters, kilometer, threeKilometers, reduced, high, realtime, and is none
when no Subscription remains; and in the scenario where App A holds standard and
App B holds realtime for the same user, removing the App B subscriptions makes
maxDemand standard and the arbiter emits exactly one downgrade command. -/
theorem C7_maxDemand_supremum (subs : List Subscription) (userId streamType : String) :
    (tierRank AccuracyTier.standard < tierRank AccuracyTier.tenMeters ∧
      tierRank AccuracyTier.tenMeters < tierRank AccuracyTier.hundredMeters ∧
      tierRank AccuracyTier.hundredMeters < tierRank AccuracyTier.kilometer ∧
      tierRank AccuracyTier.kilometer < tierRank AccuracyTier.threeKilometers ∧
      tierRank AccuracyTier.threeKilometers < tierRank AccuracyTier.reduced ∧
      tierRank AccuracyTier.reduced < tierRank AccuracyTier.high ∧
      tierRank AccuracyTier.high < tierRank AccuracyTier.realtime) ∧
    (maxDemand subs userId streamType = none ↔
      (subs.filter (fun s => s.userId == userId && s.streamType == streamType)) = []) ∧
    (∀ m : AccuracyTier, maxDemand subs userId streamType = some m →
      m ∈ (subs.filter (fun s => s.userId == userId && s.streamType == streamType)).map
          Subscription.tier ∧
      ∀ x ∈ (subs.filter (fun s => s.userId == userId && s.streamType == streamType)).map
          Subscription.tier, tierLe x m = true) ∧
    (maxDemand
        [{ userId := "user1", packageName := "com.example.appA",
           streamType := "location_stream", tier := AccuracyTier.standard },
         { userId := "user1", packageName := "com.example.appB",
           streamType := "location_stream", tier := AccuracyTier.realtime }]
        "user1" "location_stream" = some AccuracyTier.realtime ∧
      maxDemand
        ([{ userId := "user1", packageName := "com.example.appA",
            streamType := "location_stream", tier := AccuracyTier.standard },
          { userId := "user1", packageName := "com.example.appB",
            streamType := "location_stream", tier := AccuracyTier.realtime }].filter
          (fun s => !(s.packageName == "com.example.appB")))
        "user1" "location_stream" = some AccuracyTier.standard ∧
      arbiterRecompute AccuracyTier.realtime
        ([{ userId := "user1", packageName := "com.example.appA",
            streamType := "location_stream", tier := AccuracyTier.standard },
          { userId := "user1", packageName := "com.example.appB",
            streamType := "location_stream", tier := AccuracyTier.realtime }].filter
          (fun s => !(s.packageName == "com.example.appB")))
        "user1" "location_stream" =
        (AccuracyTier.standard, [AccuracyTier.standard])) := by
  refine ⟨by decide, ?_, ?_, by decide⟩
  · unfold maxDemand
    cases hf : (subs.filter (fun s => s.userId == userId && s.streamType == streamType)).map
        Subscription.tier with
    | nil =>
      constructor
      · intro _
        exact List.map_eq_nil_iff.mp hf
      · intro _
        rfl
    | cons t ts =>
      constructor
      · intro h
        cases h
      · intro h
        rw [h] at hf
        cases hf
  · intro m hm
    unfold maxDemand at hm
    cases hf : (subs.filter (fun s => s.userId == userId && s.streamType == streamType)).map
        Subscription.tier with
    | nil =>
      rw [hf] at hm
      cases hm
    | cons t ts =>
      rw [hf] at hm
      have hmval : m = ts.foldl tierMax t := by
        cases hm
        rfl
      constructor
      · rw [hmval]
        exact foldl_tierMax_mem ts t
      · intro x hx
        rw [hmval]
        unfold tierLe
        rcases List.mem_cons.mp hx with h1 | h2
        · subst h1
          simpa using tierRank_foldl_le_self ts x
        · simpa using tierRank_mem_le_foldl ts t x h2

theorem C7_maxDemand_supremum_witness :
    maxDemand
        [{ userId := "user1", packageName := "com.example.appA",
           streamType := "location_stream", tier := AccuracyTier.standard },
         { userId := "user1", packageName := "com.example.appB",
           streamType := "location_stream", tier := AccuracyTier.realtime }]
        "user1" "location_stream" = some AccuracyTier.realtime ∧
    AccuracyTier.realtime ∈
      ([{ userId := "user1", packageName := "com.example.appA",
          streamType := "location_stream", tier := AccuracyTier.standard },
        { userId := "user1", packageName := "com.example.appB",
          streamType := "location_stream", tier := AccuracyTier.realtime }].filter
        (fun s => s.userId == "user1" && s.streamType == "location_stream")).map
        Subscription.tier :=
  have h := C7_maxDemand_supremum
    [{ userId := "user1", packageName := "com.example.appA",
       streamType := "location_stream", tier := AccuracyTier.standard },
     { userId := "user1", packageName := "com.example.appB",
       streamType := "location_stream", tier := AccuracyTier.realtime }]
    "user1" "location_stream"
  ⟨h.2.2.2.1, (h.2.2.1 AccuracyTier.realtime h.2.2.2.1).1⟩

end MentraOS
